import Mathlib

/-!
# Verification of the property recommendation engine

Shallow embedding of `scripts/recommendation_engine.py`: the property
normalizer (`preprocess_properties`), the feature encoder
(`create_feature_matrix`), and the similarity ranker
(`find_similar_properties`, `get_recommendations_for_user`).

Modelling conventions, chosen to mirror the pandas/sklearn semantics of the
source exactly on the value domains the engine actually manipulates:

* Machine floats are modelled as exact rationals (`ℚ`); timestamps are
  modelled as rationals whose order agrees with the chronological order of
  the original ISO strings.
* A pandas DataFrame built from a list of dicts has a column exactly when
  some record carries the key; a record field is therefore
  `Option (Option τ)`: the outer layer is key presence (column membership),
  the inner layer is the value, `none` meaning null/NaN (including values
  that `pd.to_numeric(errors="coerce")` turns into NaN).
* `json.loads` is a library call; a `features` string is carried together
  with its parse outcome (`Option Json`, `none` = `JSONDecodeError`).
* `np.argsort` (ascending) is deterministic and for the small arrays handled
  here (the batch cap notwithstanding, every scenario in the spec has < 16
  rows, where numpy's introsort is an insertion sort) it is stable; we model
  it — like pandas `sort_values` and Python's `sorted(..., reverse=True)` /
  `heapq.nlargest` — with Mathlib's stable `List.insertionSort`.
* Ranking by cosine similarity `dot u v / (‖u‖ * ‖v‖)` is order-isomorphic
  to ranking by the rational surrogate `d * |d| / (‖u‖² * ‖v‖²)` with
  `d = dot u v` (the map `x ↦ x * |x|` is strictly monotone), which keeps
  every comparison exactly computable; rows produced by the standard scaler
  have the form `(x - μ) / σ`, so dot products of encoded rows are the
  rational sums computed by `scaledDot` below.  `simKey_mono` at the end of
  the file proves the order isomorphism.
* sklearn raises on NaN input to `StandardScaler` and the engine catches any
  such exception and degrades to an empty matrix; `handle_unknown="ignore"`
  makes the one-hot encoder total.
-/

namespace RecEngine

open scoped List

attribute [local semireducible] Rat.add Rat.sub Rat.mul Rat.inv

/-! ## JSON values and the `features` field -/

/-- A parsed JSON value (the result of a successful `json.loads`). -/
inductive Json : Type
  | null : Json
  | bool : Bool → Json
  | num : ℚ → Json
  | str : String → Json
  | arr : List Json → Json
  | obj : List (String × Json) → Json

/-- Python `len` of a parsed JSON value; `none` models the `TypeError`
raised by `len()` on values without a length. -/
def pyLen : Json → Option ℕ
  | Json.str s => some s.length
  | Json.arr xs => some xs.length
  | Json.obj fs => some fs.length
  | _ => none

/-- The raw value stored in a record's `features` slot.  The code tests
`isinstance(x, str) and x`, so non-strings (including real lists, numbers,
None/NaN) and the empty string take the `0` branch; a nonempty string is
passed to `json.loads`, carried here with its parse outcome. -/
inductive FeatVal : Type
  | nonString : FeatVal
  | emptyString : FeatVal
  | jsonString : Option Json → FeatVal

/-- One step of `df["features"].apply(lambda x: len(json.loads(x)) if
isinstance(x, str) and x else 0)` on a single cell; `none` models the
exception (`JSONDecodeError` or `TypeError`) escaping to the outer handler. -/
def featCountVal : Option FeatVal → Option ℕ
  | none => some 0
  | some FeatVal.nonString => some 0
  | some FeatVal.emptyString => some 0
  | some (FeatVal.jsonString none) => none
  | some (FeatVal.jsonString (some j)) => pyLen j

/-! ## Raw and normalized property records -/

/-- A raw property record as received from JSON.  `id` is the identifier
(string, always present in the repository's data).  For every other field
the outer `Option` is key presence and the inner value is the cell content
after the numeric coercion the code applies (`none` = null/NaN/unparsable). -/
structure RawProperty where
  id : String
  property_type : Option (Option String) := none
  price : Option (Option ℚ) := none
  area : Option (Option ℚ) := none
  bedrooms : Option (Option ℚ) := none
  bathrooms : Option (Option ℚ) := none
  governate : Option (Option String) := none
  city : Option (Option String) := none
  features : Option FeatVal := none
  created_at : Option (Option ℚ) := none
  is_featured : Option (Option Bool) := none
deriving Inhabited

/-- A row of the DataFrame produced by `preprocess_properties`.  Both exit
paths of the function guarantee the numeric columns, `property_type`,
`governate`, `city`, `location` and `features_count` exist; `price`/`area`
can still hold NaN (`none`) when a whole column had no parseable value,
and `created_at`/`is_featured` cells can hold NaN on rows that lacked the
key. -/
structure NormProperty where
  id : String
  price : Option ℚ := none
  area : Option ℚ := none
  bedrooms : ℤ := 0
  bathrooms : ℤ := 0
  property_type : String := "Unknown"
  governate : String := "Unknown"
  city : String := "Unknown"
  location : String := "Unknown_Unknown"
  features_count : ℕ := 0
  created_at : Option ℚ := none
  is_featured : Option Bool := none
deriving DecidableEq, Inhabited

/-- The DataFrame returned by `preprocess_properties`: its rows plus the
presence of the only two columns whose existence is *not* guaranteed by the
degraded exit path (`created_at` and `is_featured` are defaulted on lines
107–113 of the source, which the exception handler skips). -/
structure Df where
  rows : List NormProperty := []
  hasCreatedAt : Bool := true
  hasIsFeatured : Bool := true

/-- `preprocess_properties` accepts either a list of records (the JSON
path, which is subject to the `MAX_PROPERTIES` truncation) or an
already-built DataFrame (the `else: df = properties_data.copy()` branch,
which is not truncated). -/
inductive BatchInput : Type
  | list : List RawProperty → BatchInput
  | frame : List RawProperty → BatchInput

/-- Maximum number of properties to process (`MAX_PROPERTIES = 500`). -/
def MAX_PROPERTIES : ℕ := 500

/-! ## Property normalizer (`preprocess_properties`) -/

/-- pandas `Series.median` (sorted-middle / mean of the two middles) of the
values present after coercion; `none` on an empty list (the median of an
all-NaN column is NaN). -/
def median (l : List ℚ) : Option ℚ :=
  if l.isEmpty then none
  else
    let s := l.insertionSort (· ≤ ·)
    if l.length % 2 = 1 then some (s.getD (l.length / 2) 0)
    else some ((s.getD (l.length / 2 - 1) 0 + s.getD (l.length / 2) 0) / 2)

/-- `column.fillna(column.median())`: a present value is kept, a missing
cell receives the median — and when the median is itself NaN (all-missing
column) `fillna` is a no-op and the cell stays missing. -/
def fillWithMedian (med : Option ℚ) (v : Option ℚ) : Option ℚ :=
  match v with
  | some x => some x
  | none => med

/-- numpy's `astype(int)` cast: truncation toward zero. -/
def truncQ (q : ℚ) : ℤ :=
  if q < 0 then ⌈q⌉ else ⌊q⌋

/-- One row of the successful path of `preprocess_properties` (lines
53–116): numeric fill, categorical fill, the combined `location` key, the
parsed feature count, and the `created_at` / `is_featured` defaults.
The `has*` flags say whether the corresponding column exists in the batch,
`pm`/`am` are the batch medians of the coerced price/area columns, and
`now` is `pd.Timestamp.now()`. -/
def tryRow (hasP hasA hasBed hasBath hasPT hasGov hasCity hasCA hasIF : Bool)
    (pm am : Option ℚ) (now : ℚ) (r : RawProperty) : NormProperty :=
  let g := if hasGov then (r.governate.join).getD "Unknown" else "Unknown"
  let c := if hasCity then (r.city.join).getD "Unknown" else "Unknown"
  { id := r.id
    price := if hasP then fillWithMedian pm r.price.join else some 0
    area := if hasA then fillWithMedian am r.area.join else some 0
    bedrooms := if hasBed then truncQ ((r.bedrooms.join).getD 0) else 0
    bathrooms := if hasBath then truncQ ((r.bathrooms.join).getD 0) else 0
    property_type := if hasPT then (r.property_type.join).getD "Unknown" else "Unknown"
    governate := g
    city := c
    location := g ++ "_" ++ c
    features_count := (featCountVal r.features).getD 0
    created_at := if hasCA then r.created_at.join else some now
    is_featured := if hasIF then r.is_featured.join else some false }

/-- One row of the degraded exit path (lines 118–133).  The only raise
point inside the `try` block is the `features` parsing (line 101), which
runs after the numeric and categorical steps, so the handler re-fills an
already-processed frame: the extra `fillna(0)` turns a still-NaN price/area
into 0, `features_count` becomes 0 for every row, and the
`created_at` / `is_featured` defaulting steps never run. -/
def degradedRow (hasP hasA hasBed hasBath hasPT hasGov hasCity hasCA hasIF : Bool)
    (pm am : Option ℚ) (r : RawProperty) : NormProperty :=
  let g := if hasGov then (r.governate.join).getD "Unknown" else "Unknown"
  let c := if hasCity then (r.city.join).getD "Unknown" else "Unknown"
  { id := r.id
    price := some ((if hasP then fillWithMedian pm r.price.join else some 0).getD 0)
    area := some ((if hasA then fillWithMedian am r.area.join else some 0).getD 0)
    bedrooms := if hasBed then truncQ ((r.bedrooms.join).getD 0) else 0
    bathrooms := if hasBath then truncQ ((r.bathrooms.join).getD 0) else 0
    property_type := if hasPT then (r.property_type.join).getD "Unknown" else "Unknown"
    governate := g
    city := c
    location := g ++ "_" ++ c
    features_count := 0
    created_at := if hasCA then r.created_at.join else none
    is_featured := if hasIF then r.is_featured.join else none }

/-- Body of `preprocess_properties` after the list/DataFrame dispatch and
the truncation: empty check, per-column presence, batch medians, then the
per-row normalization — switching to the degraded path when some
`features` cell raises. -/
def preprocessCore (now : ℚ) (ps : List RawProperty) : Df :=
  if ps.isEmpty then {} else
  let hasP := ps.any (fun r => r.price.isSome)
  let hasA := ps.any (fun r => r.area.isSome)
  let hasBed := ps.any (fun r => r.bedrooms.isSome)
  let hasBath := ps.any (fun r => r.bathrooms.isSome)
  let hasPT := ps.any (fun r => r.property_type.isSome)
  let hasGov := ps.any (fun r => r.governate.isSome)
  let hasCity := ps.any (fun r => r.city.isSome)
  let hasCA := ps.any (fun r => r.created_at.isSome)
  let hasIF := ps.any (fun r => r.is_featured.isSome)
  let pm := median (ps.filterMap (fun r => r.price.join))
  let am := median (ps.filterMap (fun r => r.area.join))
  if ps.all (fun r => (featCountVal r.features).isSome) then
    { rows := ps.map (tryRow hasP hasA hasBed hasBath hasPT hasGov hasCity hasCA hasIF pm am now) }
  else
    { rows := ps.map (degradedRow hasP hasA hasBed hasBath hasPT hasGov hasCity hasCA hasIF pm am)
      hasCreatedAt := hasCA
      hasIsFeatured := hasIF }

/-- `preprocess_properties`: a list input longer than `MAX_PROPERTIES` is
truncated to its first `MAX_PROPERTIES` records before everything else; a
DataFrame input is passed through whole (the truncation guard is
`isinstance(properties_data, list)`). -/
def preprocessProperties (now : ℚ) (input : BatchInput) : Df :=
  match input with
  | BatchInput.list ps =>
      preprocessCore now (if MAX_PROPERTIES < ps.length then ps.take MAX_PROPERTIES else ps)
  | BatchInput.frame ps => preprocessCore now ps

/-! ## Feature encoder (`create_feature_matrix`) -/

/-- Batch mean and population variance (`StandardScaler` uses `ddof = 0`). -/
def colStats (vals : List ℚ) : ℚ × ℚ :=
  let n : ℚ := (vals.length : ℚ)
  let μ := vals.sum / n
  (μ, (vals.map (fun x => (x - μ) * (x - μ))).sum / n)

/-- Lexicographic comparison of char codes: the string order Python and
numpy use when `OneHotEncoder` sorts the category vocabulary. -/
def lexLe : List Char → List Char → Bool
  | [], _ => true
  | _ :: _, [] => false
  | c :: cs, d :: ds =>
      if c.toNat < d.toNat then true
      else if d.toNat < c.toNat then false
      else lexLe cs ds

/-- String comparison by char codes. -/
def strLe (a b : String) : Bool :=
  lexLe a.data b.data

/-- The category vocabulary fitted by `OneHotEncoder`: the distinct values
observed in the batch, in sorted order. -/
def sortedDedup (l : List String) : List String :=
  l.dedup.insertionSort (fun a b => strLe a b = true)

/-- The one-hot slice for one categorical feature: an indicator column per
fitted category.  With `handle_unknown="ignore"` a value outside the
vocabulary encodes as all zeros instead of raising. -/
def oneHot (cats : List String) (v : String) : List ℚ :=
  cats.map (fun c => if c = v then 1 else 0)

/-- One encoded row.  A scaled numeric entry `(x - μ) / σ` is carried as
the exact pair `(x - μ, σ²)` so that inner products stay rational;
`σ = 1` when `σ² = 0` (sklearn's zero-variance convention), in which case
the deviation is itself `0`.  The one-hot slice is carried verbatim. -/
structure EncRow where
  num : List (ℚ × ℚ) := []
  cat : List ℚ := []
deriving DecidableEq, Inhabited

/-- The fitted `ColumnTransformer` returned alongside the matrix:
per-numeric-column `(mean, variance)` in column order
(price, area, bedrooms, bathrooms, features_count) and the two categorical
vocabularies. -/
structure FittedEncoder where
  numStats : List (ℚ × ℚ) := []
  ptCats : List String := []
  locCats : List String := []
deriving DecidableEq

/-- `create_feature_matrix`: empty marker on an empty frame; the scaler
raises on NaN input (possible only for `price`/`area`, the two columns the
normalizer can leave missing) and the handler degrades to the empty
marker; otherwise scale the five numeric columns with batch statistics and
one-hot the two categorical columns over the batch vocabulary. -/
def createFeatureMatrix (df : Df) : List EncRow × Option FittedEncoder :=
  if df.rows.isEmpty then ([], none) else
  if df.rows.any (fun r => r.price.isNone || r.area.isNone) then ([], none) else
  let sp := colStats (df.rows.map (fun r => r.price.getD 0))
  let sa := colStats (df.rows.map (fun r => r.area.getD 0))
  let sbe := colStats (df.rows.map (fun r => (r.bedrooms : ℚ)))
  let sba := colStats (df.rows.map (fun r => (r.bathrooms : ℚ)))
  let sf := colStats (df.rows.map (fun r => (r.features_count : ℚ)))
  let ptCats := sortedDedup (df.rows.map (fun r => r.property_type))
  let locCats := sortedDedup (df.rows.map (fun r => r.location))
  (df.rows.map (fun r =>
      { num := [(r.price.getD 0 - sp.1, sp.2), (r.area.getD 0 - sa.1, sa.2),
                ((r.bedrooms : ℚ) - sbe.1, sbe.2), ((r.bathrooms : ℚ) - sba.1, sba.2),
                ((r.features_count : ℚ) - sf.1, sf.2)]
        cat := oneHot ptCats r.property_type ++ oneHot locCats r.location }),
   some { numStats := [sp, sa, sbe, sba, sf], ptCats := ptCats, locCats := locCats })

/-- `np.ndarray.size` of the matrix (rows × columns, counted entrywise). -/
def encSize (m : List EncRow) : ℕ :=
  (m.map (fun r => r.num.length + r.cat.length)).sum

/-! ## Cosine similarity ranking (`find_similar_properties`) -/

/-- Plain dot product of the one-hot slices. -/
def dotQ (u v : List ℚ) : ℚ :=
  (List.zipWith (fun a b => a * b) u v).sum

/-- Dot product of the scaled numeric slices: entry pairs `(d, σ²)`
multiply as `d₁ * d₂ / σ²`, i.e. `((x₁-μ)/σ) * ((x₂-μ)/σ)`; a
zero-variance column contributes 0 (its deviations are 0 and sklearn
scales it by 1). -/
def scaledDot (u v : List (ℚ × ℚ)) : ℚ :=
  (List.zipWith (fun a b => if a.2 = 0 then 0 else a.1 * b.1 / a.2) u v).sum

/-- Dot product of two encoded rows — exactly the real-number dot product
of the float vectors sklearn builds. -/
def rdot (r s : EncRow) : ℚ :=
  scaledDot r.num s.num + dotQ r.cat s.cat

/-- Rational surrogate for the cosine similarity of `t` and `r`:
`cos * |cos|` where `cos = rdot t r / (‖t‖ * ‖r‖)`.  Strictly increasing
in the cosine, equal for equal cosines, and `0` exactly when sklearn's
zero-norm convention makes the cosine `0`. -/
def simKey (t r : EncRow) : ℚ :=
  let d := rdot t r
  let p := rdot t t * rdot r r
  if p = 0 then 0 else d * |d| / p

/-- The similarity key of row `i` of the matrix against the target row. -/
def simKeyAt (t : EncRow) (m : List EncRow) (i : ℕ) : ℚ :=
  simKey t (m.getD i default)

/-- `similarities.argsort()`: the row indices sorted by similarity
ascending, equal keys kept in index order (stable). -/
def argsortAsc (t : EncRow) (m : List EncRow) : List ℕ :=
  (List.range m.length).insertionSort (fun i j => simKeyAt t m i ≤ simKeyAt t m j)

/-- `similarities.argsort()[::-1]`: the ranking used by the engine —
similarity descending, and (because a stable ascending sort is reversed)
equal keys in *descending* index order. -/
def rankedIndices (t : EncRow) (m : List EncRow) : List ℕ :=
  (argsortAsc t m).reverse

/-- `df.index[df["id"] == property_id].tolist()[0]`: index of the first
row whose identifier matches; `none` models the `IndexError` on an empty
match list (caught, yielding an empty result). -/
def firstIdxFrom (p : NormProperty → Bool) : List NormProperty → Option ℕ
  | [] => none
  | r :: rs => if p r then some 0 else (firstIdxFrom p rs).map (· + 1)

/-- `find_similar_properties(property_id, df, feature_matrix, n)`. -/
def findSimilarProperties (pid : String) (df : Df) (m : List EncRow) (n : ℕ) : List String :=
  if df.rows.isEmpty || encSize m == 0 then [] else
  match firstIdxFrom (fun r => r.id == pid) df.rows with
  | none => []
  | some idx =>
      if idx < m.length then
        let t := m.getD idx default
        let chosen := ((rankedIndices t m).filter (fun i => i ≠ idx)).take n
        if chosen.all (fun i => i < df.rows.length) then
          chosen.map (fun i => (df.rows.getD i default).id)
        else []
      else []

/-! ## User recommendations (`get_recommendations_for_user`) -/

/-- A user-history entry `{"property_id": ...}`; `none` covers both a
missing key and a null value (both falsy). -/
structure HistoryItem where
  property_id : Option String := none

/-- One iteration of the aggregation loop (lines 250–254): a history item
with a truthy `property_id` contributes `find_similar_properties(..., n=5)`
— the candidate count is the *default* 5, independent of the requested
count — and any other item contributes nothing. -/
def collectItem (df : Df) (m : List EncRow) (h : HistoryItem) : List String :=
  match h.property_id with
  | some pid => if pid ≠ "" then findSimilarProperties pid df m 5 else []
  | none => []

/-- The aggregation loop (lines 249–254): concatenate the per-item
similarity candidates over the whole history. -/
def collectSimilar (history : List HistoryItem) (df : Df) (m : List EncRow) : List String :=
  history.flatMap (collectItem df m)

/-- Iteration order of `collections.Counter` over a list: first-seen order
of the distinct elements. -/
def firstSeen (l : List String) : List String :=
  l.foldl (fun acc x => if x ∈ acc then acc else acc ++ [x]) []

/-- `[item for item, _ in Counter(l).most_common(n)]`: distinct elements
sorted by multiplicity descending — `heapq.nlargest` is stable, so equal
counts stay in first-seen order — truncated to `n`. -/
def mostCommon (l : List String) (n : ℕ) : List String :=
  ((firstSeen l).insertionSort (fun a b => l.count b ≤ l.count a)).take n

/-- Comparison used for `sort_values("created_at", ascending=False)`:
`a` may sit (weakly) before `b` when its timestamp is at least `b`'s;
NaN cells sort last (`na_position="last"`). -/
def createdBefore (a b : NormProperty) : Bool :=
  match a.created_at, b.created_at with
  | some x, some y => decide (y ≤ x)
  | some _, none => true
  | none, none => true
  | none, some _ => false

/-- `rows.sort_values("created_at", ascending=False)`, modelled with a
stable sort, newest first, NaN last. -/
def sortByCreatedDesc (rows : List NormProperty) : List NormProperty :=
  rows.insertionSort (fun a b => createdBefore a b = true)

/-- The featured phase of the backfill (lines 276–282): when the
`is_featured` column exists and some unselected property is featured,
append the newest featured identifiers up to the quota gap and shrink the
gap by the number actually taken. -/
def featuredPhase (df : Df) (top : List String) (remaining : List NormProperty) (rn : ℕ) :
    List String × ℕ :=
  if df.hasIsFeatured then
    let featured := remaining.filter (fun r => r.is_featured == some true)
    if 0 < featured.length then
      let topFeatured := ((sortByCreatedDesc featured).map (fun r => r.id)).take rn
      (top ++ topFeatured.take rn, rn - topFeatured.length)
    else (top, rn)
  else (top, rn)

/-- The backfill (lines 268–287).  `remaining` is computed **once**, before
the featured phase extends the result — the source never removes the
featured picks from it.  A missing `created_at` column would make
`sort_values` raise `KeyError`, caught by the outer handler which returns
`[]`; the sort is reached on every path through this block because the
block only runs when the quota is unmet. -/
def backfill (df : Df) (top : List String) (n : ℕ) : List String :=
  if !df.hasCreatedAt then [] else
  let remaining := df.rows.filter (fun r => !(top.contains r.id))
  let step1 := featuredPhase df top remaining (n - top.length)
  if 0 < step1.2 then
    step1.1 ++ ((sortByCreatedDesc remaining).map (fun r => r.id)).take step1.2
  else step1.1

/-- `get_recommendations_for_user(user_history, all_properties, n)`. -/
def getRecommendationsForUser (now : ℚ) (history : List HistoryItem)
    (allProps : List RawProperty) (n : ℕ) : List String :=
  if history.isEmpty || allProps.isEmpty then [] else
  let df := preprocessProperties now (BatchInput.list allProps)
  if df.rows.isEmpty then [] else
  let m := (createFeatureMatrix df).1
  if encSize m == 0 then [] else
  let allRecs := collectSimilar history df m
  if allRecs.isEmpty then [] else
  let top := mostCommon allRecs n
  if top.length < n then backfill df top n else top

/-! ## The built-in three-property test batch (`test_engine`, lines 300–337)

Timestamps `2023-01-01/02/03` are modelled as `1, 2, 3` (their order is all
the engine uses). -/

/-- `prop1`: featured Apartment in Beirut/Downtown. -/
def prop1 : RawProperty :=
  { id := "prop1", property_type := some (some "Apartment"), price := some (some 100000),
    area := some (some 100), bedrooms := some (some 2), bathrooms := some (some 1),
    governate := some (some "Beirut"), city := some (some "Downtown"),
    created_at := some (some 1), is_featured := some (some true) }

/-- `prop2`: non-featured Apartment in Beirut/Downtown. -/
def prop2 : RawProperty :=
  { id := "prop2", property_type := some (some "Apartment"), price := some (some 120000),
    area := some (some 110), bedrooms := some (some 2), bathrooms := some (some 1),
    governate := some (some "Beirut"), city := some (some "Downtown"),
    created_at := some (some 2), is_featured := some (some false) }

/-- `prop3`: non-featured Villa in Mount Lebanon/Broumana. -/
def prop3 : RawProperty :=
  { id := "prop3", property_type := some (some "Villa"), price := some (some 500000),
    area := some (some 300), bedrooms := some (some 4), bathrooms := some (some 3),
    governate := some (some "Mount Lebanon"), city := some (some "Broumana"),
    created_at := some (some 3), is_featured := some (some false) }

/-- The fixed test batch. -/
def testProperties : List RawProperty := [prop1, prop2, prop3]

/-- The normalized test batch. -/
def testDf : Df := preprocessProperties 0 (BatchInput.list testProperties)

/-- The encoded test batch. -/
def testMatrix : List EncRow := (createFeatureMatrix testDf).1

/-- The user history of the built-in test (`[{"property_id": "prop1"}]`). -/
def testHistory : List HistoryItem := [{ property_id := some "prop1" }]

/-! ## Small batches exercising the edge cases of the claims -/

/-- A batch whose rows 1 and 2 are attribute-identical (hence exactly
equally similar to row 0): exposes the tie-break order of the ranking. -/
def c3raw : List RawProperty :=
  [{ id := "p1", property_type := some (some "Apartment") },
   { id := "p2", property_type := some (some "Villa") },
   { id := "p3", property_type := some (some "Villa") }]

/-- Normalized tie-break batch. -/
def c3df : Df := preprocessProperties 0 (BatchInput.list c3raw)

/-- Encoded tie-break batch. -/
def c3mat : List EncRow := (createFeatureMatrix c3df).1

/-- The target row of the tie-break batch. -/
def c3t : EncRow := c3mat.getD 0 default

/-- A record whose `price` key is present but unparseable (coerced to NaN). -/
def c4r1 : RawProperty := { id := "a", price := some none }

/-- A second all-unparseable-price record. -/
def c4r2 : RawProperty := { id := "b", price := some none }

/-- A batch in which the identifier `"a"` occurs on two rows. -/
def c5raw : List RawProperty :=
  [{ id := "a", property_type := some (some "Apartment") },
   { id := "a", property_type := some (some "Apartment") },
   { id := "b", property_type := some (some "Villa") }]

/-- Normalized duplicate-id batch. -/
def c5df : Df := preprocessProperties 0 (BatchInput.list c5raw)

/-- Encoded duplicate-id batch. -/
def c5mat : List EncRow := (createFeatureMatrix c5df).1

/-- A record whose `features` cell is the JSON string `"abc"` — valid JSON,
not a list; `len(json.loads(x))` is 3. -/
def c7rec : RawProperty :=
  { id := "f", features := some (FeatVal.jsonString (some (Json.str "abc"))) }

/-- A record whose `features` cell fails to parse (`JSONDecodeError`). -/
def c7bad : RawProperty :=
  { id := "g", features := some (FeatVal.jsonString none) }

/-- A minimal record for building over-cap batches. -/
def c8rec : RawProperty := { id := "x" }

/-- A one-row frame for exercising the fitted encoder on unseen values. -/
def c9df : Df :=
  { rows := [{ id := "w", price := some 5, area := some 3, bedrooms := 2, bathrooms := 1,
               property_type := "Apartment", governate := "X", city := "Y", location := "X_Y",
               features_count := 0, created_at := some 0, is_featured := some false }] }

/-- The matrix fitted on `c9df`. -/
def c9mat : List EncRow :=
  [{ num := [(0, 0), (0, 0), (0, 0), (0, 0), (0, 0)], cat := [1, 1] }]

/-- The encoder fitted on `c9df`. -/
def c9enc : FittedEncoder :=
  { numStats := [(5, 0), (3, 0), (2, 0), (1, 0), (0, 0)],
    ptCats := ["Apartment"], locCats := ["X_Y"] }

/-! ## Helper lemmas -/

/-- Membership in the fitted vocabulary is membership among the observed
values. -/
theorem mem_sortedDedup {a : String} {l : List String} : a ∈ sortedDedup l ↔ a ∈ l := by
  simp [sortedDedup, List.mem_insertionSort, List.mem_dedup]

/-- `[i, j]` is a sublist of `range n` whenever `i < j < n`. -/
theorem pair_sublist_range {i j : ℕ} (hij : i < j) :
    ∀ {n : ℕ}, j < n → [i, j] <+ List.range n := by
  intro n
  induction n with
  | zero => intro h; exact absurd h (Nat.not_lt_zero j)
  | succ k ih =>
    intro hjn
    rw [List.range_succ]
    rcases Nat.lt_or_ge j k with h | h
    · exact (ih h).trans (List.sublist_append_left _ _)
    · have hj : j = k := by omega
      rw [hj] at hij ⊢
      have h1 : [i] <+ List.range k := List.singleton_sublist.mpr (List.mem_range.mpr hij)
      simpa using h1.append (List.Sublist.refl [k])

/-- A successful first-index lookup is in bounds and satisfies the
predicate. -/
theorem firstIdxFrom_some {p : NormProperty → Bool} :
    ∀ {l : List NormProperty} {i : ℕ}, firstIdxFrom p l = some i →
      i < l.length ∧ p (l.getD i default) = true := by
  intro l
  induction l with
  | nil => intro i h; simp [firstIdxFrom] at h
  | cons r rs ih =>
    intro i h
    rw [firstIdxFrom] at h
    split at h
    · cases h
      refine ⟨by simp, by simpa using ‹p r = true›⟩
    · rcases Option.map_eq_some'.mp h with ⟨j, hj, rfl⟩
      obtain ⟨hlen, hp⟩ := ih hj
      exact ⟨by simpa using Nat.succ_lt_succ hlen, by simpa using hp⟩

/-- `find_similar_properties` returns at most `n` identifiers. -/
theorem findSimilar_length_le (pid : String) (df : Df) (m : List EncRow) (n : ℕ) :
    (findSimilarProperties pid df m n).length ≤ n := by
  unfold findSimilarProperties
  split
  · simp
  · split
    · simp
    · split
      · dsimp only
        split
        · simp only [List.length_map, List.length_take]
          omega
        · simp
      · simp

/-- `most_common(n)` returns at most `n` identifiers. -/
theorem mostCommon_length_le (l : List String) (n : ℕ) : (mostCommon l n).length ≤ n := by
  simp only [mostCommon, List.length_take]
  omega

/-- The featured phase consumes exactly as much of the quota gap as it
fills. -/
theorem featuredPhase_length (df : Df) (top : List String) (remaining : List NormProperty)
    (rn : ℕ) :
    (featuredPhase df top remaining rn).1.length + (featuredPhase df top remaining rn).2 ≤
      top.length + rn := by
  unfold featuredPhase
  dsimp only
  split
  · split
    · simp only [List.length_append, List.length_take, List.length_map]
      omega
    · simp
  · simp

/-- The backfill never grows the result beyond the requested count. -/
theorem backfill_length_le (df : Df) (top : List String) (n : ℕ) (h : top.length ≤ n) :
    (backfill df top n).length ≤ n := by
  have hf := featuredPhase_length df top
    (df.rows.filter (fun r => !(top.contains r.id))) (n - top.length)
  unfold backfill
  dsimp only
  split
  · simp
  · split
    · simp only [List.length_append, List.length_take, List.length_map]
      omega
    · omega

/-- One history item contributes at most 5 candidates. -/
theorem collectItem_length_le (df : Df) (m : List EncRow) (h : HistoryItem) :
    (collectItem df m h).length ≤ 5 := by
  unfold collectItem
  split
  · split
    · exact findSimilar_length_le _ _ _ _
    · simp
  · simp

/-- `getD` of a mapped list at an in-range index. -/
theorem getD_map_lt {α β : Type} [Inhabited α] [Inhabited β] (f : α → β) (l : List α) (i : ℕ)
    (h : i < l.length) : (l.map f).getD i default = f (l.getD i default) := by
  rw [List.getD_eq_getElem?_getD, List.getD_eq_getElem?_getD, List.getElem?_map,
    List.getElem?_eq_getElem h]
  simp

/-! ## The claims -/

/-- Claim C2: for the fixed three-property batch (`prop1` featured Apartment
in Beirut/Downtown, `prop2` Apartment in Beirut/Downtown, `prop3` Villa in
Mount Lebanon/Broumana), `FindSimilar("prop1", table, matrix, 5)` ranks
`prop2` strictly above `prop3` (row 2's key is strictly below row 1's) and
returns exactly `["prop2", "prop3"]`. -/
theorem c2_confirmed :
    findSimilarProperties "prop1" testDf testMatrix 5 = ["prop2", "prop3"]
    ∧ simKeyAt (testMatrix.getD 0 default) testMatrix 2
        < simKeyAt (testMatrix.getD 0 default) testMatrix 1 := by
  decide

/-- Claim C1 (code bug): on the built-in test batch — a pool of 3 < 5
properties — `RecommendForUser` does *not* return the full deduplicated
pool: `prop1`, selected by the featured backfill, is selected a second
time by the newest backfill (the pool of remaining properties is not
refreshed in between), so the result `["prop2", "prop3", "prop1", "prop1"]`
contains a duplicate identifier. -/
theorem c1_code_bug :
    testProperties.length < 5
    ∧ getRecommendationsForUser 0 testHistory testProperties 5
        = ["prop2", "prop3", "prop1", "prop1"]
    ∧ ¬ (getRecommendationsForUser 0 testHistory testProperties 5).Nodup := by
  decide

/-- Claim C3 (counterexample): in a batch whose rows 1 and 2 are
attribute-identical — hence exactly equally similar to the target row 0 —
the ranking returns `["p3", "p2"]`: the row with the *larger* original
index comes first, refuting the claimed smaller-index-first tie-break. -/
theorem c3_counterexample :
    simKeyAt c3t c3mat 1 = simKeyAt c3t c3mat 2
    ∧ findSimilarProperties "p1" c3df c3mat 5 = ["p3", "p2"]
    ∧ findSimilarProperties "p1" c3df c3mat 5 ≠ ["p2", "p3"] := by
  decide

/-- Claim C3 (amended): `FindSimilar` ranks rows by cosine similarity
descending, but ties are broken by *descending* original row index — the
ascending argsort is stable, and reversing it puts equal keys in reverse
row order: whenever `i < j` have equal similarity, `j` precedes `i` in the
ranking. -/
theorem c3_amended (t : EncRow) (m : List EncRow) :
    List.Pairwise (fun i j => simKeyAt t m j ≤ simKeyAt t m i) (rankedIndices t m)
    ∧ ∀ i j : ℕ, i < j → j < m.length → simKeyAt t m i = simKeyAt t m j →
        [j, i] <+ rankedIndices t m := by
  constructor
  · haveI : IsTotal ℕ (fun i j => simKeyAt t m i ≤ simKeyAt t m j) :=
      ⟨fun a b => le_total _ _⟩
    haveI : IsTrans ℕ (fun i j => simKeyAt t m i ≤ simKeyAt t m j) :=
      ⟨fun a b c hab hbc => le_trans hab hbc⟩
    have hs := List.sorted_insertionSort (fun i j : ℕ => simKeyAt t m i ≤ simKeyAt t m j)
      (List.range m.length)
    rw [rankedIndices, argsortAsc, List.pairwise_reverse]
    exact hs
  · intro i j hij hjn heq
    have hp : (fun a b : ℕ => simKeyAt t m a ≤ simKeyAt t m b) i j := le_of_eq heq
    have hsub : [i, j] <+ List.range m.length := pair_sublist_range hij hjn
    have h2 := List.pair_sublist_insertionSort
      (r := fun a b : ℕ => simKeyAt t m a ≤ simKeyAt t m b) hp hsub
    simpa [rankedIndices, argsortAsc] using h2.reverse

/-- Claim C3 (amended) at a concrete input: rows 1 and 2 of the tie batch
have equal similarity to the target, and the ranking places 2 before 1. -/
theorem c3_amended_witness :
    (1 : ℕ) < 2 ∧ 2 < c3mat.length ∧ simKeyAt c3t c3mat 1 = simKeyAt c3t c3mat 2
    ∧ [2, 1] <+ rankedIndices c3t c3mat :=
  ⟨by decide, by decide, by decide,
   (c3_amended c3t c3mat).2 1 2 (by decide) (by decide) (by decide)⟩

/-- Claim C5 (counterexample): in a batch with two rows carrying the
identifier `"a"`, `FindSimilar("a", ...)` returns `"a"` itself — only the
first matching row is excluded. -/
theorem c5_counterexample :
    "a" ∈ findSimilarProperties "a" c5df c5mat 5 := by
  decide

/-- Claim C5 (amended): `FindSimilar` excludes only the *first* row whose
identifier equals the target, so the target identifier never appears in
the result provided at most one row carries it; with duplicated
identifiers it can be returned. -/
theorem c5_amended (df : Df) (m : List EncRow) (pid : String) (n : ℕ)
    (huniq : ∀ i, i < df.rows.length → ∀ j, j < df.rows.length →
      (df.rows.getD i default).id = pid → (df.rows.getD j default).id = pid → i = j) :
    pid ∉ findSimilarProperties pid df m n := by
  intro hmem
  unfold findSimilarProperties at hmem
  split at hmem
  · simp at hmem
  · split at hmem
    · simp at hmem
    · rename_i idx heq
      split at hmem
      · dsimp only at hmem
        split at hmem
        · rename_i hall
          rcases List.mem_map.mp hmem with ⟨k, hk, hkid⟩
          have hk1 := List.mem_of_mem_take hk
          have hkne : k ≠ idx := by
            have h1 := (List.mem_filter.mp hk1).2
            simpa using h1
          have hklt : k < df.rows.length := by
            have h1 := List.all_eq_true.mp hall k hk
            simpa using h1
          obtain ⟨hidxlt, hidxid⟩ := firstIdxFrom_some heq
          have hidx : (df.rows.getD idx default).id = pid := by
            simpa using hidxid
          exact hkne (huniq k hklt idx hidxlt hkid hidx)
        · simp at hmem
      · simp at hmem

/-- Claim C5 (amended) at a concrete input: the test batch carries
`"prop1"` on exactly one row and the result excludes it. -/
theorem c5_amended_witness :
    (∀ i, i < testDf.rows.length → ∀ j, j < testDf.rows.length →
      (testDf.rows.getD i default).id = "prop1" →
      (testDf.rows.getD j default).id = "prop1" → i = j)
    ∧ "prop1" ∉ findSimilarProperties "prop1" testDf testMatrix 5 :=
  ⟨by decide, c5_amended testDf testMatrix "prop1" 5 (by decide)⟩

/-- Claim C6: `RecommendForUser` returns at most `count` identifiers, and
returns none at all when `count = 0`, the history is empty, or the
property pool is empty (`count` is a natural number: the engine is invoked
with non-negative limits). -/
theorem c6_confirmed (now : ℚ) (history : List HistoryItem) (allProps : List RawProperty)
    (n : ℕ) :
    (getRecommendationsForUser now history allProps n).length ≤ n
    ∧ ((n = 0 ∨ history = [] ∨ allProps = []) →
        getRecommendationsForUser now history allProps n = []) := by
  constructor
  · unfold getRecommendationsForUser
    split
    · simp
    · dsimp only
      split
      · simp
      · split
        · simp
        · split
          · simp
          · split
            · exact backfill_length_le _ _ _ (le_of_lt (by assumption))
            · exact mostCommon_length_le _ _
  · intro h0
    rcases h0 with h0 | h0 | h0
    · subst h0
      unfold getRecommendationsForUser
      split
      · rfl
      · dsimp only
        split
        · rfl
        · split
          · rfl
          · split
            · rfl
            · split
              · omega
              · simp [mostCommon]
    · subst h0
      simp [getRecommendationsForUser]
    · subst h0
      simp [getRecommendationsForUser]

/-- Claim C6 at a concrete input: a request with `count = 0` over the test
batch yields the empty result (whose length is at most 0). -/
theorem c6_confirmed_witness :
    (getRecommendationsForUser 0 testHistory testProperties 0).length ≤ 0
    ∧ getRecommendationsForUser 0 testHistory testProperties 0 = [] :=
  ⟨(c6_confirmed 0 testHistory testProperties 0).1,
   (c6_confirmed 0 testHistory testProperties 0).2 (Or.inl rfl)⟩

/-- Claim C4 (code bug): in a batch whose `price` column exists but holds
no parseable value, the median of the coerced column is itself missing and
`fillna` with a missing value is a no-op — both prices stay missing
(NaN) after normalization instead of resolving to 0. -/
theorem c4_code_bug :
    ([c4r1, c4r2].any fun r => r.price.isSome) = true
    ∧ ((preprocessProperties 0 (BatchInput.list [c4r1, c4r2])).rows.map fun r => r.price)
        = [none, none] := by
  decide

/-- Claim C7 (counterexample): a record whose `features` field is the JSON
string `"abc"` — valid JSON, non-list content — gets
`features_count = len("abc") = 3`, not 0. -/
theorem c7_counterexample :
    ((preprocessProperties 0 (BatchInput.list [c7rec])).rows.getD 0 default).features_count = 3
    ∧ ((preprocessProperties 0 (BatchInput.list [c7rec])).rows.getD 0 default).features_count
        ≠ 0 := by
  decide

/-- Claim C7 (amended): `features` handling never raises to the caller,
but non-list content is not uniformly treated as absent: (a) on a batch
whose `features` cells all evaluate without error, a cell holding a JSON
*string* yields `features_count` equal to that string's length; (b) a cell
whose evaluation raises (malformed JSON, or valid JSON without a `len`)
sends the whole batch through the degraded fallback, where every record's
`features_count` is 0. -/
theorem c7_amended :
    (∀ (now : ℚ) (ps : List RawProperty) (i : ℕ) (s : String),
        ps.length ≤ MAX_PROPERTIES →
        (∀ r ∈ ps, (featCountVal r.features).isSome = true) →
        i < ps.length →
        (ps.getD i default).features = some (FeatVal.jsonString (some (Json.str s))) →
        ((preprocessProperties now (BatchInput.list ps)).rows.getD i default).features_count
          = s.length)
    ∧ (∀ (now : ℚ) (ps : List RawProperty),
        ps.length ≤ MAX_PROPERTIES →
        (∃ r ∈ ps, (featCountVal r.features).isSome = false) →
        ∀ r ∈ (preprocessProperties now (BatchInput.list ps)).rows, r.features_count = 0) := by
  constructor
  · intro now ps i s hlen hok hi hfeat
    have hntrunc : ¬ MAX_PROPERTIES < ps.length := by omega
    have hne : ps.isEmpty = false := by
      rcases ps with _ | ⟨r, rs⟩
      · simp at hi
      · rfl
    have hall : ps.all (fun r => (featCountVal r.features).isSome) = true :=
      List.all_eq_true.mpr hok
    rw [preprocessProperties, if_neg hntrunc]
    rw [preprocessCore, hne]
    dsimp only
    rw [if_neg (by simp), if_pos hall]
    rw [getD_map_lt _ _ _ hi]
    rw [List.getD_eq_getElem?_getD] at hfeat
    simp [tryRow, hfeat, featCountVal, pyLen]
  · intro now ps hlen hbad r hr
    have hntrunc : ¬ MAX_PROPERTIES < ps.length := by omega
    have hne : ps.isEmpty = false := by
      rcases hbad with ⟨b, hb, _⟩
      rcases ps with _ | ⟨x, xs⟩
      · simp at hb
      · rfl
    have hall : ps.all (fun r => (featCountVal r.features).isSome) = false := by
      rcases hbad with ⟨b, hb, hbf⟩
      exact List.all_eq_false.mpr ⟨b, hb, by simp [hbf]⟩
    rw [preprocessProperties, if_neg hntrunc] at hr
    rw [preprocessCore, hne] at hr
    dsimp only at hr
    rw [if_neg (by simp), if_neg (by simp [hall])] at hr
    rcases List.mem_map.mp hr with ⟨r0, _, rfl⟩
    rfl

/-- Claim C7 (amended) at concrete inputs: the JSON-string record gets
count 3, and a batch containing a malformed record gets all-zero counts. -/
theorem c7_amended_witness :
    ((preprocessProperties 0 (BatchInput.list [c7rec])).rows.getD 0 default).features_count = 3
    ∧ ∀ r ∈ (preprocessProperties 0 (BatchInput.list [c7bad])).rows, r.features_count = 0 := by
  constructor
  · have h := c7_amended.1 0 [c7rec] 0 "abc" (by decide) (by decide) (by decide) rfl
    exact h.trans rfl
  · exact c7_amended.2 0 [c7bad] (by decide)
      ⟨c7bad, List.mem_singleton_self c7bad, rfl⟩

set_option maxRecDepth 10000 in
/-- Claim C8 (counterexample): a 501-record batch arriving as an
already-built DataFrame is *not* truncated — all 501 rows survive
normalization, refuting "this truncation applies to every form of
incoming batch". -/
theorem c8_counterexample :
    MAX_PROPERTIES < (List.replicate 501 c8rec).length
    ∧ (preprocessProperties 0 (BatchInput.frame (List.replicate 501 c8rec))).rows.length = 501
    ∧ (preprocessProperties 0 (BatchInput.frame (List.replicate 501 c8rec))).rows.length
        ≠ 500 := by
  decide

/-- Claim C8 (amended): the truncation to the first `MAX_PROPERTIES`
records — applied before medians and everything else, so the whole
normalization agrees with that of the truncated batch — holds for
batches arriving as lists; DataFrame-form batches are processed in full. -/
theorem c8_amended (now : ℚ) (ps : List RawProperty) (h : MAX_PROPERTIES < ps.length) :
    preprocessProperties now (BatchInput.list ps)
      = preprocessProperties now (BatchInput.list (ps.take MAX_PROPERTIES)) := by
  simp only [preprocessProperties]
  rw [if_pos h, if_neg (by simp only [List.length_take]; omega)]

set_option maxRecDepth 10000 in
/-- Claim C8 (amended) at a concrete input: a 501-record list batch
normalizes exactly like its first 500 records. -/
theorem c8_amended_witness :
    MAX_PROPERTIES < (List.replicate 501 c8rec).length
    ∧ preprocessProperties 0 (BatchInput.list (List.replicate 501 c8rec))
        = preprocessProperties 0
            (BatchInput.list ((List.replicate 501 c8rec).take MAX_PROPERTIES)) :=
  ⟨by decide, c8_amended 0 (List.replicate 501 c8rec) (by decide)⟩

/-- Claim C9: after the encoder is fitted on a batch, a `property_type` or
`location` value never observed in that batch encodes as an all-zero
one-hot slice (rather than raising — the embedded transform is total,
matching `handle_unknown="ignore"`). -/
theorem c9_confirmed (df : Df) (mat : List EncRow) (enc : FittedEncoder)
    (hfit : createFeatureMatrix df = (mat, some enc)) (v : String) :
    ((∀ r ∈ df.rows, r.property_type ≠ v) → ∀ x ∈ oneHot enc.ptCats v, x = 0)
    ∧ ((∀ r ∈ df.rows, r.location ≠ v) → ∀ x ∈ oneHot enc.locCats v, x = 0) := by
  unfold createFeatureMatrix at hfit
  split at hfit
  · simp at hfit
  · split at hfit
    · simp at hfit
    · dsimp only at hfit
      injection hfit with hm he
      injection he with he
      constructor
      · intro hv x hx
        rw [← he] at hx
        rcases List.mem_map.mp hx with ⟨c, hc, rfl⟩
        rcases List.mem_map.mp (mem_sortedDedup.mp hc) with ⟨r, hr, rfl⟩
        rw [if_neg (hv r hr)]
      · intro hv x hx
        rw [← he] at hx
        rcases List.mem_map.mp hx with ⟨c, hc, rfl⟩
        rcases List.mem_map.mp (mem_sortedDedup.mp hc) with ⟨r, hr, rfl⟩
        rw [if_neg (hv r hr)]

/-- Claim C9 at a concrete input: `"Villa"` is not observed in the one-row
batch `c9df`, and its one-hot slice under the fitted vocabulary is all
zeros. -/
theorem c9_confirmed_witness :
    (∀ r ∈ c9df.rows, r.property_type ≠ "Villa")
    ∧ ∀ x ∈ oneHot c9enc.ptCats "Villa", x = 0 :=
  ⟨by decide,
   (c9_confirmed c9df c9mat c9enc (by decide) "Villa").1 (by decide)⟩

/-- Claim C10: the per-history-item similarity lookup always requests 5
candidates (the `find_similar_properties` default), independent of the
requested count, so at most `5 · h` candidate identifiers enter the
frequency ranking for a history of `h` items. -/
theorem c10_confirmed (history : List HistoryItem) (df : Df) (m : List EncRow) :
    (collectSimilar history df m).length ≤ 5 * history.length := by
  induction history with
  | nil => simp [collectSimilar]
  | cons x xs ih =>
    have h1 := collectItem_length_le df m x
    simp only [collectSimilar, List.flatMap_cons, List.length_append, List.length_cons] at ih ⊢
    omega

/-! ## Justification of the similarity surrogate

`simKey` replaces the cosine `d / (√n₁ * √n₂)` by the rational
`d * |d| / (n₁ * n₂)`; the two order every comparison identically because
`x ↦ x * |x|` is strictly monotone and
`(d / (√n₁ √n₂)) * |d / (√n₁ √n₂)| = d * |d| / (n₁ n₂)`. -/

/-- `x ↦ x * |x|` is strictly monotone on the reals. -/
theorem mul_abs_lt_mul_abs (a b : ℝ) (h : a < b) : a * |a| < b * |b| := by
  rcases le_or_lt 0 a with ha | ha
  · rw [abs_of_nonneg ha, abs_of_nonneg (le_trans ha h.le)]
    exact mul_self_lt_mul_self ha h
  · rcases le_or_lt 0 b with hb | hb
    · rw [abs_of_neg ha, abs_of_nonneg hb]
      nlinarith
    · rw [abs_of_neg ha, abs_of_neg hb]
      nlinarith

/-- `x ↦ x * |x|` reflects and preserves order. -/
theorem mul_abs_le_mul_abs_iff (a b : ℝ) : a * |a| ≤ b * |b| ↔ a ≤ b := by
  constructor
  · intro h
    by_contra hab
    push_neg at hab
    exact absurd h (not_le.mpr (mul_abs_lt_mul_abs b a hab))
  · intro h
    rcases eq_or_lt_of_le h with rfl | hlt
    · exact le_refl _
    · exact (mul_abs_lt_mul_abs a b hlt).le

/-- Comparing `simKey`-style surrogates `d * |d| / n` is the same as
comparing the cosines `d / √n` (for positive squared norms `n`): the
permutation produced by `argsortAsc` therefore coincides with the one
numpy computes on the cosine similarities. -/
theorem simKey_mono (a b x y : ℝ) (hx : 0 < x) (hy : 0 < y) :
    (a * |a| / x ≤ b * |b| / y ↔ a / Real.sqrt x ≤ b / Real.sqrt y) := by
  have hsx : (0:ℝ) < Real.sqrt x := Real.sqrt_pos.mpr hx
  have hsy : (0:ℝ) < Real.sqrt y := Real.sqrt_pos.mpr hy
  have ex : a / Real.sqrt x * |a / Real.sqrt x| = a * |a| / x := by
    rw [abs_div, abs_of_nonneg (Real.sqrt_nonneg x), div_mul_div_comm,
      Real.mul_self_sqrt hx.le]
  have ey : b / Real.sqrt y * |b / Real.sqrt y| = b * |b| / y := by
    rw [abs_div, abs_of_nonneg (Real.sqrt_nonneg y), div_mul_div_comm,
      Real.mul_self_sqrt hy.le]
  rw [← ex, ← ey, mul_abs_le_mul_abs_iff]

end RecEngine

